import Mathlib

/-!
# dedupmq: a Mosquitto plugin that drops duplicate MQTT messages

Shallow embedding of `src/dedupmq.c`.

* The plugin's file-scope variables (`topics`, `topic_count`, `ttl_seconds`,
  `verbose_log`, `memc`) are the fields of `Plugin`; the functions that read or
  write them take and return a `Plugin` value.
* The library functions the plugin links against (`XXH64`,
  `mosquitto_topic_matches_sub`, `atoi`, `memcached_create`) are the fields of
  `Lib`; the memcached server reached through `memcached_get` and
  `memcached_set` is a `Memcached σ` over an arbitrary state type `σ`.
  Theorems quantify over both.  Executable reference instances
  (`XXH64_model`, `topic_matches_sub_model`, `atoi_model`, `timedStore`) are
  given so that every statement can be evaluated on concrete inputs.
* `mosquitto_log_printf` only writes to the broker log and is not modelled.
  Every other library call made by `on_message` is recorded, in order, in the
  `calls` field of its outcome.
-/

namespace Dedupmq

/-! ## Constants -/

/-- Line 20: `#define MAX_TOPICS 64`. -/
def MAX_TOPICS : Nat := 64

/-- Value of `MOSQ_ERR_SUCCESS` in `mosquitto.h`. -/
def MOSQ_ERR_SUCCESS : Nat := 0

/-- Value of `MOSQ_ERR_INVAL` in `mosquitto.h`. -/
def MOSQ_ERR_INVAL : Nat := 3

/-- Value of `MOSQ_ERR_UNKNOWN` in `mosquitto.h`. -/
def MOSQ_ERR_UNKNOWN : Nat := 13

/-- Lines 21-23: `#define MOSQ_ERR_PLUGIN_IGNORE 17`. -/
def MOSQ_ERR_PLUGIN_IGNORE : Nat := 17

/-- Value of `MEMCACHED_SUCCESS` in libmemcached. -/
def MEMCACHED_SUCCESS : Nat := 0

/-- Value of `MEMCACHED_CONNECTION_FAILURE` in libmemcached. -/
def MEMCACHED_CONNECTION_FAILURE : Nat := 3

/-- Value of `MEMCACHED_NOTFOUND` in libmemcached. -/
def MEMCACHED_NOTFOUND : Nat := 16

/-! ## Data model -/

/-- The fields of `struct mosquitto_evt_message` that `on_message` reads: the
topic and the payload bytes (`payloadlen` is the length of the list). -/
structure Message where
  topic : String
  payload : List Nat
  deriving DecidableEq, Repr

/-- The library functions the plugin calls, other than the memcached accessors.
`XXH64 bytes seed` is the 64-bit hash, `mosquitto_topic_matches_sub sub topic`
returns the status code and the value written to `*result`, and
`memcached_create` tells whether `memcached_create(NULL)` returns a handle. -/
structure Lib where
  XXH64 : List Nat → Nat → Nat
  mosquitto_topic_matches_sub : String → String → Nat × Bool
  atoi : String → Int
  memcached_create : Bool

/-- The memcached server as seen through the two accessors the plugin uses.
`get s key` returns the value (`none` for a `NULL` result), the status written
to `rc`, and the next server state; `set s key value expiration` returns the
status and the next server state. -/
structure Memcached (σ : Type) where
  get : σ → String → Option String × Nat × σ
  set : σ → String → String → Int → Nat × σ

/-- The file-scope variables of the plugin (lines 25-30).  `topics` holds the
entries `topics[0 .. topic_count)`, `memc` is the handle with the server that
was added to it (`none` for `NULL`), and `registered` records that
`mosquitto_callback_register` was called for `on_message`. -/
structure Plugin where
  topics : List String
  ttl_seconds : Int
  verbose_log : Bool
  memc : Option (String × Int)
  registered : Bool
  deriving DecidableEq, Repr

/-- The variable `topic_count`. -/
def Plugin.topic_count (p : Plugin) : Nat := p.topics.length

/-- The static initialisers of lines 25-30. -/
def Plugin.initial : Plugin :=
  { topics := [], ttl_seconds := 60, verbose_log := false, memc := none, registered := false }

/-- A library call made by `on_message`. -/
inductive Call where
  | matches_sub (sub topic : String)
  | xxh64 (payload : List Nat)
  | get (key : String)
  | set (key value : String) (expiration : Int)
  deriving DecidableEq, Repr

/-- Whether a call goes to the memcached server. -/
def Call.isStore : Call → Bool
  | Call.get _ => true
  | Call.set _ _ _ => true
  | _ => false

/-- Whether a call computes a fingerprint. -/
def Call.isHash : Call → Bool
  | Call.xxh64 _ => true
  | _ => false

/-- What one invocation of `on_message` leaves behind: the returned code, the
plugin variables, the memcached state and the library calls made. -/
structure Outcome (σ : Type) where
  ret : Nat
  plugin : Plugin
  store : σ
  calls : List Call

/-! ## Fingerprint (lines 32-38) -/

/-- The conversion `%016llx` of an `unsigned long long`: lowercase hexadecimal
digits, padded on the left with `0` to a width of 16. -/
def fmt_016llx (v : Nat) : List Char :=
  let ds := Nat.toDigits 16 (v % 2 ^ 64)
  List.replicate (16 - ds.length) '0' ++ ds

/-- The call `snprintf(hex, size, "%016llx", v)`: at most `size - 1` characters
are stored. -/
def snprintf_016llx (size : Nat) (v : Nat) : String :=
  String.mk ((fmt_016llx v).take (size - 1))

/-- Lines 33-38: `xxhash64_hex(payload, len)`. -/
def xxhash64_hex (lib : Lib) (payload : List Nat) : String :=
  let hash := lib.XXH64 payload 0 % 2 ^ 64
  snprintf_016llx 17 hash

/-! ## Message callback (lines 40-84) -/

/-- Lines 46-55: the loop over `topics[0 .. topic_count)`.  Returns `matched`
and the matcher calls made; the loop stops at the first filter for which the
matcher returns `MOSQ_ERR_SUCCESS` with a true result. -/
def topic_loop (lib : Lib) (topic : String) : List String → Bool × List Call
  | [] => (false, [])
  | sub :: rest =>
    let r := lib.mosquitto_topic_matches_sub sub topic
    if r.1 = MOSQ_ERR_SUCCESS ∧ r.2 = true then
      (true, [Call.matches_sub sub topic])
    else
      let t := topic_loop lib topic rest
      (t.1, Call.matches_sub sub topic :: t.2)

/-- Lines 40-84: `on_message`. -/
def on_message {σ : Type} (lib : Lib) (mc : Memcached σ) (p : Plugin) (s : σ)
    (msg : Message) : Outcome σ :=
  let m := topic_loop lib msg.topic p.topics
  if m.1 = false then
    { ret := MOSQ_ERR_SUCCESS, plugin := p, store := s, calls := m.2 }
  else
    let hash_key := xxhash64_hex lib msg.payload
    let g := mc.get s hash_key
    match g.1 with
    | some _ =>
      { ret := MOSQ_ERR_PLUGIN_IGNORE, plugin := p, store := g.2.2,
        calls := m.2 ++ [Call.xxh64 msg.payload, Call.get hash_key] }
    | none =>
      let w := mc.set g.2.2 hash_key "1" p.ttl_seconds
      { ret := MOSQ_ERR_SUCCESS, plugin := p, store := w.2,
        calls := m.2 ++ [Call.xxh64 msg.payload, Call.get hash_key,
                         Call.set hash_key "1" p.ttl_seconds] }

/-! ## Plugin initialisation (lines 96-130) -/

/-- The locals `memcached_host` and `memcached_ports` together with the plugin
variables, as threaded through the option loop. -/
structure InitLoop where
  plugin : Plugin
  memcached_host : String
  memcached_ports : String
  deriving DecidableEq, Repr

/-- Lines 103-115: the body of the option loop for one `(key, value)` option. -/
def init_option (lib : Lib) (st : InitLoop) (opt : String × String) : InitLoop :=
  if opt.1 = "topic" then
    if st.plugin.topic_count < MAX_TOPICS then
      { st with plugin := { st.plugin with topics := st.plugin.topics ++ [opt.2] } }
    else st
  else if opt.1 = "memcached_host" then
    { st with memcached_host := opt.2 }
  else if opt.1 = "memcached_port" then
    { st with memcached_ports := opt.2 }
  else if opt.1 = "ttl" then
    { st with plugin := { st.plugin with ttl_seconds := lib.atoi opt.2 } }
  else if opt.1 = "verbose_log" then
    { st with plugin :=
        { st.plugin with verbose_log := (opt.2 = "true" ∨ opt.2 = "1" : Bool) } }
  else st

/-- Lines 100-116: the option loop, started with the default host and port. -/
def init_loop (lib : Lib) (options : List (String × String)) (p : Plugin) : InitLoop :=
  options.foldl (init_option lib)
    { plugin := p, memcached_host := "127.0.0.1", memcached_ports := "11211" }

/-- Lines 96-130: `mosquitto_plugin_init`.  Returns the status code and the
plugin variables afterwards. -/
def mosquitto_plugin_init (lib : Lib) (options : List (String × String)) (p : Plugin) :
    Nat × Plugin :=
  let st := init_loop lib options p
  let memcached_port := lib.atoi st.memcached_ports
  if lib.memcached_create = false then
    (MOSQ_ERR_UNKNOWN, { st.plugin with memc := none })
  else
    (MOSQ_ERR_SUCCESS,
      { st.plugin with memc := some (st.memcached_host, memcached_port), registered := true })

/-! ## Reference instances of the library functions -/

/-! ### xxHash64 -/

/-- First multiplier of xxHash64. -/
def PRIME64_1 : Nat := 0x9E3779B185EBCA87
/-- Second multiplier of xxHash64. -/
def PRIME64_2 : Nat := 0xC2B2AE3D27D4EB4F
/-- Third multiplier of xxHash64. -/
def PRIME64_3 : Nat := 0x165667B19E3779F9
/-- Fourth multiplier of xxHash64. -/
def PRIME64_4 : Nat := 0x85EBCA77C2B2AE63
/-- Fifth multiplier of xxHash64. -/
def PRIME64_5 : Nat := 0x27D4EB2F165667C5

/-- Rotate a 64-bit word left by `r` bits (`0 < r < 64`). -/
def rotl64 (x r : Nat) : Nat :=
  ((x <<< r) ||| (x >>> (64 - r))) % 2 ^ 64

/-- Read `n` bytes as a little-endian integer. -/
def readLE : Nat → List Nat → Nat
  | 0, _ => 0
  | _ + 1, [] => 0
  | n + 1, b :: bs => b % 256 + 256 * readLE n bs

/-- One accumulator round of xxHash64. -/
def xxh64_round (acc input : Nat) : Nat :=
  rotl64 ((acc + input * PRIME64_2) % 2 ^ 64) 31 * PRIME64_1 % 2 ^ 64

/-- Merge one accumulator into the running hash. -/
def xxh64_mergeRound (acc val : Nat) : Nat :=
  ((acc ^^^ xxh64_round 0 val) * PRIME64_1 + PRIME64_4) % 2 ^ 64

/-- Consume `n` stripes of 32 bytes into the four accumulators. -/
def xxh64_stripes : Nat → List Nat → Nat × Nat × Nat × Nat → (Nat × Nat × Nat × Nat) × List Nat
  | 0, bs, v => (v, bs)
  | n + 1, bs, (v1, v2, v3, v4) =>
    xxh64_stripes n (bs.drop 32)
      (xxh64_round v1 (readLE 8 bs), xxh64_round v2 (readLE 8 (bs.drop 8)),
       xxh64_round v3 (readLE 8 (bs.drop 16)), xxh64_round v4 (readLE 8 (bs.drop 24)))

/-- Consume `n` remaining 8-byte words. -/
def xxh64_tail8 : Nat → List Nat → Nat → Nat × List Nat
  | 0, bs, h => (h, bs)
  | n + 1, bs, h =>
    xxh64_tail8 n (bs.drop 8)
      ((rotl64 (h ^^^ xxh64_round 0 (readLE 8 bs)) 27 * PRIME64_1 + PRIME64_4) % 2 ^ 64)

/-- Consume the remaining single bytes. -/
def xxh64_tail1 : List Nat → Nat → Nat
  | [], h => h
  | b :: bs, h => xxh64_tail1 bs (rotl64 (h ^^^ (b % 256 * PRIME64_5 % 2 ^ 64)) 11 * PRIME64_1 % 2 ^ 64)

/-- Final mixing step of xxHash64. -/
def xxh64_avalanche (h : Nat) : Nat :=
  let h := (h ^^^ (h >>> 33)) * PRIME64_2 % 2 ^ 64
  let h := (h ^^^ (h >>> 29)) * PRIME64_3 % 2 ^ 64
  h ^^^ (h >>> 32)

/-- Reference model of the xxHash library function `XXH64(input, len, seed)`,
following the published xxHash64 algorithm; bytes are taken modulo 256. -/
def XXH64_model (bytes : List Nat) (seed : Nat) : Nat :=
  let len := bytes.length
  let seed := seed % 2 ^ 64
  let a :=
    if 32 ≤ len then
      let r := xxh64_stripes (len / 32) bytes
        ((seed + PRIME64_1 + PRIME64_2) % 2 ^ 64, (seed + PRIME64_2) % 2 ^ 64, seed,
         (seed + 2 ^ 64 - PRIME64_1) % 2 ^ 64)
      let v := r.1
      let h := (rotl64 v.1 1 + rotl64 v.2.1 7 + rotl64 v.2.2.1 12 + rotl64 v.2.2.2 18) % 2 ^ 64
      let h := xxh64_mergeRound h v.1
      let h := xxh64_mergeRound h v.2.1
      let h := xxh64_mergeRound h v.2.2.1
      let h := xxh64_mergeRound h v.2.2.2
      (h, r.2)
    else ((seed + PRIME64_5) % 2 ^ 64, bytes)
  let h := (a.1 + len) % 2 ^ 64
  let t := xxh64_tail8 (a.2.length / 8) a.2 h
  let u :=
    if 4 ≤ t.2.length then
      ((rotl64 (t.1 ^^^ (readLE 4 t.2 * PRIME64_1 % 2 ^ 64)) 23 * PRIME64_2 + PRIME64_3) % 2 ^ 64,
        t.2.drop 4)
    else t
  xxh64_avalanche (xxh64_tail1 u.2 u.1)

/-! ### Topic matching -/

/-- Split a topic or filter into its `/`-separated levels. -/
def splitLevels : List Char → List (List Char)
  | [] => [[]]
  | c :: cs =>
    match splitLevels cs with
    | [] => [[]]
    | l :: ls => if c = '/' then [] :: l :: ls else (c :: l) :: ls

/-- A filter is well formed when every level is `+`, or is free of wildcard
characters, or is `#` in the last position. -/
def validSubLevels : List (List Char) → Bool
  | [] => true
  | [l] => l = ['#'] || l = ['+'] || l.all (fun c => c != '#' && c != '+')
  | l :: ls => (l = ['+'] || l.all (fun c => c != '#' && c != '+')) && validSubLevels ls

/-- Level-wise matching of a well-formed filter against a topic. -/
def matchLevels : List (List Char) → List (List Char) → Bool
  | [['#']], _ => true
  | [], [] => true
  | f :: fs, t :: ts => (f = ['+'] || f = t) && matchLevels fs ts
  | _, _ => false

/-- Reference model of the libmosquitto function `mosquitto_topic_matches_sub`,
level by level: a `$`-topic is only matched by a `$`-filter, an empty or
malformed filter or topic gives `MOSQ_ERR_INVAL`. -/
def topic_matches_sub_model (sub topic : String) : Nat × Bool :=
  if sub.data = [] ∨ topic.data = [] then (MOSQ_ERR_INVAL, false)
  else if (sub.data.head? = some '$') ≠ (topic.data.head? = some '$') then
    (MOSQ_ERR_SUCCESS, false)
  else if validSubLevels (splitLevels sub.data) = false
      ∨ topic.data.any (fun c => c = '#' || c = '+') = true then
    (MOSQ_ERR_INVAL, false)
  else (MOSQ_ERR_SUCCESS, matchLevels (splitLevels sub.data) (splitLevels topic.data))

/-! ### `atoi` -/

/-- The decimal digits at the front of the input, accumulated onto `acc`. -/
def atoi_digits : List Char → Int → Int
  | [], acc => acc
  | c :: cs, acc =>
    if c.isDigit then atoi_digits cs (acc * 10 + ((c.toNat - 48 : Nat) : Int)) else acc

/-- Reference model of the C library function `atoi` for inputs whose value
fits an `int`: leading white space, an optional sign, then decimal digits. -/
def atoi_model (s : String) : Int :=
  match s.data.dropWhile (fun c => c = ' ' || (9 ≤ c.toNat && c.toNat ≤ 13)) with
  | '-' :: r => - atoi_digits r 0
  | '+' :: r => atoi_digits r 0
  | r => atoi_digits r 0

/-- The reference library: the models above and a `memcached_create` that
succeeds. -/
def refLib : Lib :=
  { XXH64 := XXH64_model
    mosquitto_topic_matches_sub := topic_matches_sub_model
    atoi := atoi_model
    memcached_create := true }

/-! ### A memcached server with expiry times -/

/-- A server state: the current time in seconds and, for each key, the stored
value with its expiry time (the first pair for a key is the current one). -/
structure TimedStore where
  now : Int
  entries : List (String × String × Int)
  deriving DecidableEq, Repr

/-- The unexpired entry for `key`, when there is one. -/
def TimedStore.live (s : TimedStore) (key : String) : Option String :=
  match s.entries.lookup key with
  | some (v, e) => if s.now < e then some v else none
  | none => none

/-- Let `d` seconds pass. -/
def TimedStore.advance (s : TimedStore) (d : Nat) : TimedStore :=
  { s with now := s.now + d }

/-- A server whose reads and writes always succeed: a read returns the
unexpired entry, a write stores the value with expiry `now + expiration`. -/
def timedStore : Memcached TimedStore :=
  { get := fun s key =>
      match s.live key with
      | some v => (some v, MEMCACHED_SUCCESS, s)
      | none => (none, MEMCACHED_NOTFOUND, s)
    set := fun s key value expiration =>
      (MEMCACHED_SUCCESS, { s with entries := (key, value, s.now + expiration) :: s.entries }) }

/-- A server that cannot be reached: every read returns `NULL` with
`MEMCACHED_CONNECTION_FAILURE` and every write fails with the same status. -/
def downStore : Memcached Unit :=
  { get := fun s _ => (none, MEMCACHED_CONNECTION_FAILURE, s)
    set := fun s _ _ _ => (MEMCACHED_CONNECTION_FAILURE, s) }

/-- A server on which nothing can be stored: every read reports the key as
not found and every write fails with `MEMCACHED_CONNECTION_FAILURE`. -/
def fullStore : Memcached Unit :=
  { get := fun s _ => (none, MEMCACHED_NOTFOUND, s)
    set := fun s _ _ _ => (MEMCACHED_CONNECTION_FAILURE, s) }

/-- The bytes of an ASCII string. -/
def bytesOf (s : String) : List Nat := s.data.map Char.toNat

/-! ## A running example

The filter `sensors/+/temp` with a TTL of 5 seconds, and the message
`sensors/room1/temp` with payload `22.5`. -/

/-- The plugin variables after loading `topic sensors/+/temp` and `ttl 5`. -/
def demoPlugin : Plugin :=
  { topics := ["sensors/+/temp"], ttl_seconds := 5, verbose_log := false,
    memc := some ("127.0.0.1", 11211), registered := true }

/-- A message on a topic the filter matches. -/
def demoMsg : Message := ⟨"sensors/room1/temp", bytesOf "22.5"⟩

/-- The same payload on a topic the filter does not match. -/
def otherMsg : Message := ⟨"sensors/room1/humidity", bytesOf "22.5"⟩

/-- A server with no entries, at time 1000. -/
def demoStore : TimedStore := ⟨1000, []⟩

/-- The running example with a second filter, `alarms/#`. -/
def twoFilters : Plugin := { demoPlugin with topics := ["sensors/+/temp", "alarms/#"] }

/-- An option list with 66 `topic` options followed by a `ttl` option. -/
def manyOptions : List (String × String) :=
  List.replicate 66 ("topic", "sensors/+/temp") ++ [("ttl", "5")]

/-! ## Predicates used in the statements -/

/-- Some configured filter matches the topic: the matcher returns
`MOSQ_ERR_SUCCESS` with a true result for it. -/
def Matched (lib : Lib) (topics : List String) (topic : String) : Prop :=
  ∃ sub ∈ topics, (lib.mosquitto_topic_matches_sub sub topic).1 = MOSQ_ERR_SUCCESS ∧
    (lib.mosquitto_topic_matches_sub sub topic).2 = true

/-- The value of a lowercase hexadecimal digit. -/
def hexVal (c : Char) : Nat :=
  if c.isDigit then c.toNat - 48 else c.toNat - 87

/-- The number written by a string of hexadecimal digits. -/
def hexDecode (s : String) : Nat :=
  s.data.foldl (fun acc c => acc * 16 + hexVal c) 0

/-- The character is one of `0-9a-f`. -/
def isLowerHex (c : Char) : Bool :=
  c.isDigit || (97 ≤ c.toNat && c.toNat ≤ 102)

/-- The values of the options with the given key, in order. -/
def optionValues (key : String) (options : List (String × String)) : List String :=
  (options.filter (fun o => o.1 = key)).map (fun o => o.2)

end Dedupmq

/-! ## Lemmas on the topic loop -/

namespace Dedupmq

theorem topic_loop_matched (lib : Lib) (topic : String) (topics : List String) :
    (topic_loop lib topic topics).1 = true ↔ Matched lib topics topic := by
  induction topics with
  | nil => simp [topic_loop, Matched]
  | cons sub rest ih =>
    unfold topic_loop
    by_cases h : (lib.mosquitto_topic_matches_sub sub topic).1 = MOSQ_ERR_SUCCESS ∧
        (lib.mosquitto_topic_matches_sub sub topic).2 = true
    · simp only [h, and_self, if_true, true_iff]
      exact ⟨sub, List.mem_cons_self _ _, h⟩
    · simp only [h, if_false, ih]
      constructor
      · rintro ⟨f, hf, hm⟩
        exact ⟨f, List.mem_cons_of_mem _ hf, hm⟩
      · rintro ⟨f, hf, hm⟩
        rcases List.mem_cons.mp hf with rfl | hf
        · exact absurd hm h
        · exact ⟨f, hf, hm⟩

theorem topic_loop_unmatched (lib : Lib) (topic : String) (topics : List String) :
    (topic_loop lib topic topics).1 = false ↔ ¬ Matched lib topics topic := by
  rw [← topic_loop_matched]
  cases (topic_loop lib topic topics).1 <;> simp

theorem topic_loop_calls (lib : Lib) (topic : String) (topics : List String) :
    ∀ c ∈ (topic_loop lib topic topics).2, c.isStore = false ∧ c.isHash = false := by
  induction topics with
  | nil => simp [topic_loop]
  | cons sub rest ih =>
    unfold topic_loop
    by_cases h : (lib.mosquitto_topic_matches_sub sub topic).1 = MOSQ_ERR_SUCCESS ∧
        (lib.mosquitto_topic_matches_sub sub topic).2 = true
    · simp only [h, and_self, if_true]
      intro c hc
      rw [List.mem_singleton] at hc
      subst hc
      exact ⟨rfl, rfl⟩
    · simp only [h, if_false]
      intro c hc
      rcases List.mem_cons.mp hc with rfl | hc
      · exact ⟨rfl, rfl⟩
      · exact ih c hc

/-- A filter is handed to the matcher when no filter before it matches. -/
theorem topic_loop_reaches (lib : Lib) (topic : String) (sub : String) (post : List String) :
    ∀ pre : List String, ¬ Matched lib pre topic →
      Call.matches_sub sub topic ∈ (topic_loop lib topic (pre ++ sub :: post)).2 := by
  intro pre
  induction pre with
  | nil =>
    intro _
    rw [List.nil_append]
    unfold topic_loop
    by_cases hs : (lib.mosquitto_topic_matches_sub sub topic).1 = MOSQ_ERR_SUCCESS ∧
        (lib.mosquitto_topic_matches_sub sub topic).2 = true
    · simp only [hs, and_self, if_true, List.mem_singleton]
    · simp only [hs, if_false]
      exact List.mem_cons_self _ _
  | cons f rest ih =>
    intro h
    have hf : ¬ ((lib.mosquitto_topic_matches_sub f topic).1 = MOSQ_ERR_SUCCESS ∧
        (lib.mosquitto_topic_matches_sub f topic).2 = true) :=
      fun hok => h ⟨f, List.mem_cons_self _ _, hok⟩
    have hrest : ¬ Matched lib rest topic := by
      rintro ⟨g, hg, hok⟩
      exact h ⟨g, List.mem_cons_of_mem _ hg, hok⟩
    rw [List.cons_append]
    unfold topic_loop
    simp only [hf, if_false]
    exact List.mem_cons_of_mem _ (ih hrest)

theorem topic_loop_filter_store (lib : Lib) (topic : String) (topics : List String) :
    (topic_loop lib topic topics).2.filter Call.isStore = [] := by
  rw [List.filter_eq_nil_iff]
  intro c hc
  simp [(topic_loop_calls lib topic topics c hc).1]

theorem topic_loop_filter_hash (lib : Lib) (topic : String) (topics : List String) :
    (topic_loop lib topic topics).2.filter Call.isHash = [] := by
  rw [List.filter_eq_nil_iff]
  intro c hc
  simp [(topic_loop_calls lib topic topics c hc).2]

/-- The outcome of `on_message` when no filter matches. -/
theorem on_message_unmatched {σ : Type} (lib : Lib) (mc : Memcached σ) (p : Plugin) (s : σ)
    (msg : Message) (h : ¬ Matched lib p.topics msg.topic) :
    on_message lib mc p s msg =
      { ret := MOSQ_ERR_SUCCESS, plugin := p, store := s,
        calls := (topic_loop lib msg.topic p.topics).2 } := by
  have h0 := (topic_loop_unmatched lib msg.topic p.topics).mpr h
  simp [on_message, h0]

/-- The outcome of `on_message` when a filter matches and the read returns a value. -/
theorem on_message_some {σ : Type} (lib : Lib) (mc : Memcached σ) (p : Plugin) (s : σ)
    (msg : Message) (h : Matched lib p.topics msg.topic) (v : String)
    (hv : (mc.get s (xxhash64_hex lib msg.payload)).1 = some v) :
    on_message lib mc p s msg =
      { ret := MOSQ_ERR_PLUGIN_IGNORE, plugin := p,
        store := (mc.get s (xxhash64_hex lib msg.payload)).2.2,
        calls := (topic_loop lib msg.topic p.topics).2 ++
          [Call.xxh64 msg.payload, Call.get (xxhash64_hex lib msg.payload)] } := by
  have h1 := (topic_loop_matched lib msg.topic p.topics).mpr h
  simp [on_message, h1, hv]

/-- The outcome of `on_message` when a filter matches and the read returns no value. -/
theorem on_message_none {σ : Type} (lib : Lib) (mc : Memcached σ) (p : Plugin) (s : σ)
    (msg : Message) (h : Matched lib p.topics msg.topic)
    (hv : (mc.get s (xxhash64_hex lib msg.payload)).1 = none) :
    on_message lib mc p s msg =
      { ret := MOSQ_ERR_SUCCESS, plugin := p,
        store := (mc.set (mc.get s (xxhash64_hex lib msg.payload)).2.2
          (xxhash64_hex lib msg.payload) "1" p.ttl_seconds).2,
        calls := (topic_loop lib msg.topic p.topics).2 ++
          [Call.xxh64 msg.payload, Call.get (xxhash64_hex lib msg.payload),
           Call.set (xxhash64_hex lib msg.payload) "1" p.ttl_seconds] } := by
  have h1 := (topic_loop_matched lib msg.topic p.topics).mpr h
  simp [on_message, h1, hv]

/-- The matcher calls of the topic loop are among the calls of `on_message`. -/
theorem on_message_calls_loop {σ : Type} (lib : Lib) (mc : Memcached σ) (p : Plugin) (s : σ)
    (msg : Message) :
    ∀ c ∈ (topic_loop lib msg.topic p.topics).2, c ∈ (on_message lib mc p s msg).calls := by
  intro c hc
  by_cases hm : Matched lib p.topics msg.topic
  · cases hv : (mc.get s (xxhash64_hex lib msg.payload)).1 with
    | none =>
      rw [on_message_none lib mc p s msg hm hv]
      exact List.mem_append_left _ hc
    | some v =>
      rw [on_message_some lib mc p s msg hm v hv]
      exact List.mem_append_left _ hc
  · rw [on_message_unmatched lib mc p s msg hm]
    exact hc

end Dedupmq

/-! ## Lemmas on the timed server -/

namespace Dedupmq

theorem timedStore_get_fst (s : TimedStore) (key : String) :
    (timedStore.get s key).1 = s.live key := by
  simp only [timedStore]
  cases s.live key <;> rfl

theorem timedStore_get_store (s : TimedStore) (key : String) :
    (timedStore.get s key).2.2 = s := by
  simp only [timedStore]
  cases s.live key <;> rfl

theorem live_of_lookup_none (s : TimedStore) (key : String)
    (h : s.entries.lookup key = none) : s.live key = none := by
  simp [TimedStore.live, h]

/-- After a write at time `now`, the entry is live `d` seconds later exactly
when `d` is less than the expiration given to the write. -/
theorem live_after_set (s : TimedStore) (key value : String) (ttl : Int) (d : Nat) :
    ((timedStore.set s key value ttl).2.advance d).live key =
      if (d : Int) < ttl then some value else none := by
  simp only [timedStore, TimedStore.advance, TimedStore.live, List.lookup_cons, beq_self_eq_true]
  by_cases h : (d : Int) < ttl
  · have : s.now + (d : Int) < s.now + ttl := by omega
    simp [h, this]
  · have : ¬ (s.now + (d : Int) < s.now + ttl) := by omega
    simp [h, this]

/-- The first call on a matched message with no entry for its fingerprint
passes and leaves the written entry behind. -/
theorem first_call (lib : Lib) (p : Plugin) (s : TimedStore) (msg : Message)
    (hm : Matched lib p.topics msg.topic)
    (hfresh : s.entries.lookup (xxhash64_hex lib msg.payload) = none) :
    (on_message lib timedStore p s msg).ret = MOSQ_ERR_SUCCESS ∧
    (on_message lib timedStore p s msg).store =
      (timedStore.set s (xxhash64_hex lib msg.payload) "1" p.ttl_seconds).2 := by
  have hg : (timedStore.get s (xxhash64_hex lib msg.payload)).1 = none := by
    rw [timedStore_get_fst]; exact live_of_lookup_none s _ hfresh
  rw [on_message_none lib timedStore p s msg hm hg, timedStore_get_store]
  exact ⟨rfl, rfl⟩

/-- The return code of a call on a matched message against the timed server. -/
theorem timed_ret (lib : Lib) (p : Plugin) (s : TimedStore) (topic : String)
    (payload : List Nat) (hm : Matched lib p.topics topic) :
    (on_message lib timedStore p s ⟨topic, payload⟩).ret =
      if (s.live (xxhash64_hex lib payload)).isSome then MOSQ_ERR_PLUGIN_IGNORE
      else MOSQ_ERR_SUCCESS := by
  cases hl : s.live (xxhash64_hex lib payload) with
  | none =>
    have hg : (timedStore.get s (xxhash64_hex lib (Message.mk topic payload).payload)).1 = none := by
      rw [timedStore_get_fst]; exact hl
    rw [on_message_none lib timedStore p s ⟨topic, payload⟩ hm hg]
    rfl
  | some v =>
    have hg : (timedStore.get s (xxhash64_hex lib (Message.mk topic payload).payload)).1 = some v := by
      rw [timedStore_get_fst]; exact hl
    rw [on_message_some lib timedStore p s ⟨topic, payload⟩ hm v hg]
    rfl

/-- A dropped call leaves the timed server as it was. -/
theorem timed_drop_store (lib : Lib) (p : Plugin) (s : TimedStore) (msg : Message)
    (hm : Matched lib p.topics msg.topic) (v : String)
    (hl : s.live (xxhash64_hex lib msg.payload) = some v) :
    (on_message lib timedStore p s msg).store = s := by
  have hg : (timedStore.get s (xxhash64_hex lib msg.payload)).1 = some v := by
    rw [timedStore_get_fst]; exact hl
  rw [on_message_some lib timedStore p s msg hm v hg, timedStore_get_store]

end Dedupmq

/-! ## Claims -/

namespace Dedupmq

/-- C1: over the timed server (reads and writes always succeed), with a positive
`ttl_seconds`, for a message whose topic matches a configured filter and whose
fingerprint has no entry: the first `on_message` returns `MOSQ_ERR_SUCCESS`; a
second call with the same message `d1 < ttl_seconds` seconds later returns
`MOSQ_ERR_PLUGIN_IGNORE`; a call `d2 ≥ ttl_seconds` seconds after the first
returns `MOSQ_ERR_SUCCESS` again, also when the dropped second call came in
between. -/
theorem C1_pass_drop_pass (lib : Lib) (p : Plugin) (s : TimedStore) (msg : Message)
    (d1 d2 : Nat) (hT : 0 < p.ttl_seconds)
    (hm : Matched lib p.topics msg.topic)
    (hfresh : s.entries.lookup (xxhash64_hex lib msg.payload) = none)
    (hd1 : (d1 : Int) < p.ttl_seconds) (hd2 : p.ttl_seconds ≤ (d2 : Int)) :
    (on_message lib timedStore p s msg).ret = MOSQ_ERR_SUCCESS ∧
    (on_message lib timedStore p ((on_message lib timedStore p s msg).store.advance d1) msg).ret
      = MOSQ_ERR_PLUGIN_IGNORE ∧
    (on_message lib timedStore p ((on_message lib timedStore p s msg).store.advance d2) msg).ret
      = MOSQ_ERR_SUCCESS ∧
    (on_message lib timedStore p
      ((on_message lib timedStore p
        ((on_message lib timedStore p s msg).store.advance d1) msg).store.advance (d2 - d1)) msg).ret
      = MOSQ_ERR_SUCCESS := by
  have _ := hT
  obtain ⟨h1, hs⟩ := first_call lib p s msg hm hfresh
  have hlive1 := live_after_set s (xxhash64_hex lib msg.payload) "1" p.ttl_seconds d1
  have hlive2 := live_after_set s (xxhash64_hex lib msg.payload) "1" p.ttl_seconds d2
  rw [if_pos hd1] at hlive1
  rw [if_neg (by omega)] at hlive2
  refine ⟨h1, ?_, ?_, ?_⟩
  · rw [hs, timed_ret lib p _ msg.topic msg.payload hm, hlive1]; rfl
  · rw [hs, timed_ret lib p _ msg.topic msg.payload hm, hlive2]; rfl
  · rw [hs, timed_drop_store lib p _ msg hm "1" hlive1]
    have hadv : ((timedStore.set s (xxhash64_hex lib msg.payload) "1" p.ttl_seconds).2.advance
        d1).advance (d2 - d1) =
        (timedStore.set s (xxhash64_hex lib msg.payload) "1" p.ttl_seconds).2.advance d2 := by
      have hle : d1 ≤ d2 := by omega
      simp only [TimedStore.advance, timedStore]
      congr 1
      omega
    rw [hadv, timed_ret lib p _ msg.topic msg.payload hm, hlive2]; rfl

end Dedupmq

namespace Dedupmq

theorem demo_matched : Matched refLib demoPlugin.topics demoMsg.topic :=
  ⟨"sensors/+/temp", by decide, by decide, by decide⟩

/-- Witness of C1 on the running example: second call back-to-back, third call
five seconds after the first. -/
theorem C1_pass_drop_pass_witness :
    ((0 : Int) < demoPlugin.ttl_seconds ∧ Matched refLib demoPlugin.topics demoMsg.topic ∧
      demoStore.entries.lookup (xxhash64_hex refLib demoMsg.payload) = none ∧
      ((0 : Nat) : Int) < demoPlugin.ttl_seconds ∧ demoPlugin.ttl_seconds ≤ ((5 : Nat) : Int)) ∧
    ((on_message refLib timedStore demoPlugin demoStore demoMsg).ret = MOSQ_ERR_SUCCESS ∧
    (on_message refLib timedStore demoPlugin
      ((on_message refLib timedStore demoPlugin demoStore demoMsg).store.advance 0) demoMsg).ret
      = MOSQ_ERR_PLUGIN_IGNORE ∧
    (on_message refLib timedStore demoPlugin
      ((on_message refLib timedStore demoPlugin demoStore demoMsg).store.advance 5) demoMsg).ret
      = MOSQ_ERR_SUCCESS ∧
    (on_message refLib timedStore demoPlugin
      ((on_message refLib timedStore demoPlugin
        ((on_message refLib timedStore demoPlugin demoStore demoMsg).store.advance 0)
          demoMsg).store.advance (5 - 0)) demoMsg).ret
      = MOSQ_ERR_SUCCESS) :=
  ⟨⟨by decide, demo_matched, by decide, by decide, by decide⟩,
    C1_pass_drop_pass refLib demoPlugin demoStore demoMsg 0 5 (by decide) demo_matched
      (by decide) (by decide) (by decide)⟩

/-- Counterexample to C2 as stated: after `demoMsg` has been passed and its
fingerprint stored, the same payload on the unmatched topic
`sensors/room1/humidity` is not dropped although the store holds an unexpired
entry for its fingerprint. -/
theorem C2_counterexample :
    ¬ ((on_message refLib timedStore demoPlugin
          (on_message refLib timedStore demoPlugin demoStore demoMsg).store otherMsg).ret
          = MOSQ_ERR_PLUGIN_IGNORE ↔
        ((on_message refLib timedStore demoPlugin demoStore demoMsg).store.live
          (xxhash64_hex refLib otherMsg.payload)).isSome = true) := by
  decide

/-- C2 (amended): `on_message` returns `MOSQ_ERR_PLUGIN_IGNORE` if and only if the
topic matches a configured filter and the read of the payload's fingerprint
returns a value; over the timed server, if and only if the topic matches a
configured filter and the server holds an unexpired entry for the fingerprint. -/
theorem C2_drop_iff_matched_and_present (lib : Lib) (p : Plugin) (msg : Message) :
    (∀ (σ : Type) (mc : Memcached σ) (s : σ),
      (on_message lib mc p s msg).ret = MOSQ_ERR_PLUGIN_IGNORE ↔
        (Matched lib p.topics msg.topic ∧
          (mc.get s (xxhash64_hex lib msg.payload)).1.isSome = true)) ∧
    (∀ s : TimedStore,
      (on_message lib timedStore p s msg).ret = MOSQ_ERR_PLUGIN_IGNORE ↔
        (Matched lib p.topics msg.topic ∧
          (s.live (xxhash64_hex lib msg.payload)).isSome = true)) := by
  have key : ∀ (σ : Type) (mc : Memcached σ) (s : σ),
      (on_message lib mc p s msg).ret = MOSQ_ERR_PLUGIN_IGNORE ↔
        (Matched lib p.topics msg.topic ∧
          (mc.get s (xxhash64_hex lib msg.payload)).1.isSome = true) := by
    intro σ mc s
    by_cases hm : Matched lib p.topics msg.topic
    · cases hv : (mc.get s (xxhash64_hex lib msg.payload)).1 with
      | none =>
        rw [on_message_none lib mc p s msg hm hv]
        simp [MOSQ_ERR_SUCCESS, MOSQ_ERR_PLUGIN_IGNORE]
      | some v =>
        rw [on_message_some lib mc p s msg hm v hv]
        simp [hm]
    · rw [on_message_unmatched lib mc p s msg hm]
      simp [hm, MOSQ_ERR_SUCCESS, MOSQ_ERR_PLUGIN_IGNORE]
  refine ⟨key, ?_⟩
  intro s
  rw [key TimedStore timedStore s, timedStore_get_fst]

/-- C3: when no configured filter matches the topic (for every `i < topic_count`
the matcher does not return `MOSQ_ERR_SUCCESS` with a true result for
`topics[i]`), `on_message` returns `MOSQ_ERR_SUCCESS`, leaves the store state
and the plugin variables unchanged, and makes no store call and no hash call;
with an empty filter list it makes no library call at all. -/
theorem C3_unmatched_short_circuit {σ : Type} (lib : Lib) (mc : Memcached σ) (p : Plugin)
    (s : σ) (msg : Message)
    (h : ∀ (i : Nat) (hi : i < p.topic_count),
      ¬ ((lib.mosquitto_topic_matches_sub (p.topics.get ⟨i, hi⟩) msg.topic).1 = MOSQ_ERR_SUCCESS ∧
         (lib.mosquitto_topic_matches_sub (p.topics.get ⟨i, hi⟩) msg.topic).2 = true)) :
    (on_message lib mc p s msg).ret = MOSQ_ERR_SUCCESS ∧
    (on_message lib mc p s msg).store = s ∧
    (on_message lib mc p s msg).plugin = p ∧
    (on_message lib mc p s msg).calls.countP Call.isStore = 0 ∧
    (on_message lib mc p s msg).calls.countP Call.isHash = 0 ∧
    (on_message lib mc { p with topics := [] } s msg).ret = MOSQ_ERR_SUCCESS ∧
    (on_message lib mc { p with topics := [] } s msg).store = s ∧
    (on_message lib mc { p with topics := [] } s msg).calls = [] := by
  have hm : ¬ Matched lib p.topics msg.topic := by
    rintro ⟨sub, hsub, hok⟩
    obtain ⟨i, hi, rfl⟩ := List.getElem_of_mem hsub
    exact h i hi hok
  have he : ¬ Matched lib ({ p with topics := [] } : Plugin).topics msg.topic := by
    rintro ⟨sub, hsub, _⟩
    simp at hsub
  rw [on_message_unmatched lib mc p s msg hm, on_message_unmatched lib mc _ s msg he]
  refine ⟨rfl, rfl, rfl, ?_, ?_, rfl, rfl, rfl⟩
  · rw [List.countP_eq_length_filter, topic_loop_filter_store]; rfl
  · rw [List.countP_eq_length_filter, topic_loop_filter_hash]; rfl

/-- Witness of C3: the running example's filter does not match
`sensors/room1/humidity`. -/
theorem C3_unmatched_short_circuit_witness :
    (∀ (i : Nat) (hi : i < demoPlugin.topic_count),
      ¬ ((refLib.mosquitto_topic_matches_sub (demoPlugin.topics.get ⟨i, hi⟩) otherMsg.topic).1
            = MOSQ_ERR_SUCCESS ∧
         (refLib.mosquitto_topic_matches_sub (demoPlugin.topics.get ⟨i, hi⟩) otherMsg.topic).2
            = true)) ∧
    (on_message refLib timedStore demoPlugin demoStore otherMsg).ret = MOSQ_ERR_SUCCESS ∧
    (on_message refLib timedStore demoPlugin demoStore otherMsg).store = demoStore ∧
    (on_message refLib timedStore demoPlugin demoStore otherMsg).calls.countP Call.isStore = 0 :=
  have h : ∀ (i : Nat) (hi : i < demoPlugin.topic_count),
      ¬ ((refLib.mosquitto_topic_matches_sub (demoPlugin.topics.get ⟨i, hi⟩) otherMsg.topic).1
            = MOSQ_ERR_SUCCESS ∧
         (refLib.mosquitto_topic_matches_sub (demoPlugin.topics.get ⟨i, hi⟩) otherMsg.topic).2
            = true) := by
    intro i hi
    have hi1 : i < 1 := hi
    have h0 : i = 0 := by omega
    subst h0
    show ¬ ((topic_matches_sub_model "sensors/+/temp" "sensors/room1/humidity").1
          = MOSQ_ERR_SUCCESS ∧
        (topic_matches_sub_model "sensors/+/temp" "sensors/room1/humidity").2 = true)
    decide
  have r := C3_unmatched_short_circuit refLib timedStore demoPlugin demoStore otherMsg h
  ⟨h, r.1, r.2.1, r.2.2.2.1⟩

end Dedupmq

namespace Dedupmq

/-- C4 (fail-open): whenever the read of the fingerprint returns no value,
`on_message` returns `MOSQ_ERR_SUCCESS`, whatever status the read reported and
whatever the write then returns.  This covers a server on which every
operation fails (read `NULL` with an error status, write not successful) and a
read that finds no entry followed by a failed write. -/
theorem C4_fail_open {σ : Type} (lib : Lib) (mc : Memcached σ) (p : Plugin) (s : σ)
    (msg : Message) (hread : (mc.get s (xxhash64_hex lib msg.payload)).1 = none) :
    (on_message lib mc p s msg).ret = MOSQ_ERR_SUCCESS := by
  by_cases hm : Matched lib p.topics msg.topic
  · rw [on_message_none lib mc p s msg hm hread]
  · rw [on_message_unmatched lib mc p s msg hm]

/-- Witness of C4: the unreachable server (every read and write fails) and the
server whose read finds nothing and whose write fails, on the running example. -/
theorem C4_fail_open_witness :
    ((downStore.get () (xxhash64_hex refLib demoMsg.payload)).1 = none ∧
      (downStore.get () (xxhash64_hex refLib demoMsg.payload)).2.1 ≠ MEMCACHED_SUCCESS ∧
      (downStore.set () (xxhash64_hex refLib demoMsg.payload) "1" 5).1 ≠ MEMCACHED_SUCCESS ∧
      (on_message refLib downStore demoPlugin () demoMsg).ret = MOSQ_ERR_SUCCESS) ∧
    ((fullStore.get () (xxhash64_hex refLib demoMsg.payload)).1 = none ∧
      (fullStore.get () (xxhash64_hex refLib demoMsg.payload)).2.1 = MEMCACHED_NOTFOUND ∧
      (fullStore.set () (xxhash64_hex refLib demoMsg.payload) "1" 5).1 ≠ MEMCACHED_SUCCESS ∧
      (on_message refLib fullStore demoPlugin () demoMsg).ret = MOSQ_ERR_SUCCESS) :=
  ⟨⟨rfl, by decide, by decide, C4_fail_open refLib downStore demoPlugin () demoMsg rfl⟩,
    ⟨rfl, rfl, by decide, C4_fail_open refLib fullStore demoPlugin () demoMsg rfl⟩⟩

/-- Counterexample to C5 as stated: against the unreachable server the read of
the running example's fingerprint fails with `MEMCACHED_CONNECTION_FAILURE` (it
does not report the entry absent), yet `on_message` issues the write, and its
return code and calls are those of a read that reported the entry absent. -/
theorem C5_counterexample :
    (downStore.get () (xxhash64_hex refLib demoMsg.payload)).2.1 = MEMCACHED_CONNECTION_FAILURE ∧
    (downStore.get () (xxhash64_hex refLib demoMsg.payload)).2.1 ≠ MEMCACHED_NOTFOUND ∧
    Call.set (xxhash64_hex refLib demoMsg.payload) "1" 5 ∈
      (on_message refLib downStore demoPlugin () demoMsg).calls ∧
    (on_message refLib downStore demoPlugin () demoMsg).ret =
      (on_message refLib fullStore demoPlugin () demoMsg).ret ∧
    (on_message refLib downStore demoPlugin () demoMsg).calls =
      (on_message refLib fullStore demoPlugin () demoMsg).calls := by
  decide

/-- C5 (amended): for a message whose topic matches a filter, `on_message` makes
one store read keyed by the payload's fingerprint and then writes
(fingerprint, "1", `ttl_seconds`) exactly when that read returned no value,
whether the entry was absent or the read failed: the status of the read is not
inspected, so changing it changes nothing.  When the read returned a value no
write is issued and the store is as the read left it; over the timed server it
is unchanged, so the entry's expiry is not extended. -/
theorem C5_read_then_write_if_no_value {σ : Type} (lib : Lib) (mc : Memcached σ) (p : Plugin)
    (s : σ) (msg : Message) (t : TimedStore) (hm : Matched lib p.topics msg.topic) :
    (on_message lib mc p s msg).calls.filter Call.isStore =
      (if (mc.get s (xxhash64_hex lib msg.payload)).1.isSome = true then
        [Call.get (xxhash64_hex lib msg.payload)]
      else
        [Call.get (xxhash64_hex lib msg.payload),
         Call.set (xxhash64_hex lib msg.payload) "1" p.ttl_seconds]) ∧
    (on_message lib mc p s msg).store =
      (if (mc.get s (xxhash64_hex lib msg.payload)).1.isSome = true then
        (mc.get s (xxhash64_hex lib msg.payload)).2.2
      else
        (mc.set (mc.get s (xxhash64_hex lib msg.payload)).2.2
          (xxhash64_hex lib msg.payload) "1" p.ttl_seconds).2) ∧
    (∀ f : Nat → Nat,
      (on_message lib
        { get := fun s k => ((mc.get s k).1, f (mc.get s k).2.1, (mc.get s k).2.2)
          set := mc.set } p s msg).ret = (on_message lib mc p s msg).ret ∧
      (on_message lib
        { get := fun s k => ((mc.get s k).1, f (mc.get s k).2.1, (mc.get s k).2.2)
          set := mc.set } p s msg).store = (on_message lib mc p s msg).store ∧
      (on_message lib
        { get := fun s k => ((mc.get s k).1, f (mc.get s k).2.1, (mc.get s k).2.2)
          set := mc.set } p s msg).calls = (on_message lib mc p s msg).calls) ∧
    (on_message lib timedStore p t msg).store =
      (if (t.live (xxhash64_hex lib msg.payload)).isSome = true then t
      else (timedStore.set t (xxhash64_hex lib msg.payload) "1" p.ttl_seconds).2) := by
  have gen : ∀ (τ : Type) (m : Memcached τ) (u : τ),
      (on_message lib m p u msg).calls.filter Call.isStore =
        (if (m.get u (xxhash64_hex lib msg.payload)).1.isSome = true then
          [Call.get (xxhash64_hex lib msg.payload)]
        else
          [Call.get (xxhash64_hex lib msg.payload),
           Call.set (xxhash64_hex lib msg.payload) "1" p.ttl_seconds]) ∧
      (on_message lib m p u msg).store =
        (if (m.get u (xxhash64_hex lib msg.payload)).1.isSome = true then
          (m.get u (xxhash64_hex lib msg.payload)).2.2
        else
          (m.set (m.get u (xxhash64_hex lib msg.payload)).2.2
            (xxhash64_hex lib msg.payload) "1" p.ttl_seconds).2) := by
    intro τ m u
    cases hv : (m.get u (xxhash64_hex lib msg.payload)).1 with
    | none =>
      rw [on_message_none lib m p u msg hm hv]
      simp [List.filter_append, topic_loop_filter_store, Call.isStore, Call.isHash]
    | some v =>
      rw [on_message_some lib m p u msg hm v hv]
      simp [List.filter_append, topic_loop_filter_store, Call.isStore, Call.isHash]
  refine ⟨(gen σ mc s).1, (gen σ mc s).2, ?_, ?_⟩
  · intro f
    cases hv : (mc.get s (xxhash64_hex lib msg.payload)).1 with
    | none =>
      rw [on_message_none lib mc p s msg hm hv,
        on_message_none lib
          (Memcached.mk (fun s k => ((mc.get s k).1, f (mc.get s k).2.1, (mc.get s k).2.2)) mc.set)
          p s msg hm hv]
      exact ⟨rfl, rfl, rfl⟩
    | some v =>
      rw [on_message_some lib mc p s msg hm v hv,
        on_message_some lib
          (Memcached.mk (fun s k => ((mc.get s k).1, f (mc.get s k).2.1, (mc.get s k).2.2)) mc.set)
          p s msg hm v hv]
      exact ⟨rfl, rfl, rfl⟩
  · rw [(gen TimedStore timedStore t).2, timedStore_get_fst, timedStore_get_store]

/-- Witness of C5 (amended) on the running example. -/
theorem C5_read_then_write_if_no_value_witness :
    Matched refLib demoPlugin.topics demoMsg.topic ∧
    (on_message refLib downStore demoPlugin () demoMsg).calls.filter Call.isStore =
      [Call.get (xxhash64_hex refLib demoMsg.payload),
       Call.set (xxhash64_hex refLib demoMsg.payload) "1" 5] :=
  ⟨demo_matched,
    (C5_read_then_write_if_no_value refLib downStore demoPlugin () demoMsg demoStore
      demo_matched).1⟩

/-- C10: deduplication is keyed on the payload alone.  For topics `t1` and `t2`
that each match some configured filter and a payload whose fingerprint has no
entry in the timed server, `on_message` on `(t1, payload)` returns
`MOSQ_ERR_SUCCESS` and a following `on_message` on `(t2, payload)`, `d` seconds
later with `d < ttl_seconds`, returns `MOSQ_ERR_PLUGIN_IGNORE`; and against any
server the return code, the resulting store and the store calls (with their
keys) are the same for `t1` and for `t2`. -/
theorem C10_keyed_on_payload (lib : Lib) (p : Plugin) (s : TimedStore) (t1 t2 : String)
    (payload : List Nat) (d : Nat)
    (hm1 : Matched lib p.topics t1) (hm2 : Matched lib p.topics t2)
    (hfresh : s.entries.lookup (xxhash64_hex lib payload) = none)
    (hd : (d : Int) < p.ttl_seconds) :
    (on_message lib timedStore p s ⟨t1, payload⟩).ret = MOSQ_ERR_SUCCESS ∧
    (on_message lib timedStore p
      ((on_message lib timedStore p s ⟨t1, payload⟩).store.advance d) ⟨t2, payload⟩).ret
      = MOSQ_ERR_PLUGIN_IGNORE ∧
    (∀ (σ : Type) (mc : Memcached σ) (u : σ),
      (on_message lib mc p u ⟨t1, payload⟩).ret = (on_message lib mc p u ⟨t2, payload⟩).ret ∧
      (on_message lib mc p u ⟨t1, payload⟩).store = (on_message lib mc p u ⟨t2, payload⟩).store ∧
      (on_message lib mc p u ⟨t1, payload⟩).calls.filter Call.isStore =
        (on_message lib mc p u ⟨t2, payload⟩).calls.filter Call.isStore) := by
  obtain ⟨h1, hs⟩ := first_call lib p s ⟨t1, payload⟩ hm1 hfresh
  have hlive := live_after_set s (xxhash64_hex lib payload) "1" p.ttl_seconds d
  rw [if_pos hd] at hlive
  refine ⟨h1, ?_, ?_⟩
  · rw [hs, timed_ret lib p _ t2 payload hm2]
    show (if (TimedStore.live _ (xxhash64_hex lib payload)).isSome = true then _ else _) = _
    rw [hlive]; rfl
  · intro σ mc u
    cases hv : (mc.get u (xxhash64_hex lib payload)).1 with
    | none =>
      rw [on_message_none lib mc p u ⟨t1, payload⟩ hm1 hv,
        on_message_none lib mc p u ⟨t2, payload⟩ hm2 hv]
      simp [List.filter_append, topic_loop_filter_store]
    | some v =>
      rw [on_message_some lib mc p u ⟨t1, payload⟩ hm1 v hv,
        on_message_some lib mc p u ⟨t2, payload⟩ hm2 v hv]
      simp [List.filter_append, topic_loop_filter_store]

end Dedupmq

/-! ## Lemmas on the hexadecimal rendering -/

namespace Dedupmq

theorem hexVal_digitChar (k : Nat) (hk : k < 16) : hexVal (Nat.digitChar k) = k := by
  interval_cases k <;> rfl

theorem isLowerHex_digitChar (k : Nat) (hk : k < 16) : isLowerHex (Nat.digitChar k) = true := by
  interval_cases k <;> rfl

theorem toDigitsCore_decode (fuel : Nat) :
    ∀ (n : Nat) (ds : List Char), n < fuel →
      (Nat.toDigitsCore 16 fuel n ds).foldl (fun acc c => acc * 16 + hexVal c) 0 =
        ds.foldl (fun acc c => acc * 16 + hexVal c) n := by
  induction fuel with
  | zero => intro n ds h; omega
  | succ fuel ih =>
    intro n ds h
    have hmod : n % 16 < 16 := Nat.mod_lt _ (by decide)
    simp only [Nat.toDigitsCore]
    by_cases h0 : n / 16 = 0
    · simp only [h0, if_true, List.foldl_cons, hexVal_digitChar _ hmod]
      congr 1
      omega
    · simp only [h0, if_false]
      rw [ih (n / 16) _ (by omega)]
      simp only [List.foldl_cons, hexVal_digitChar _ hmod]
      congr 1
      omega

theorem toDigitsCore_hex (fuel : Nat) :
    ∀ (n : Nat) (ds : List Char), (∀ c ∈ ds, isLowerHex c = true) →
      ∀ c ∈ Nat.toDigitsCore 16 fuel n ds, isLowerHex c = true := by
  induction fuel with
  | zero => intro n ds h; simpa [Nat.toDigitsCore] using h
  | succ fuel ih =>
    intro n ds h
    have hmod : n % 16 < 16 := Nat.mod_lt _ (by decide)
    have hds : ∀ c ∈ Nat.digitChar (n % 16) :: ds, isLowerHex c = true := by
      intro c hc
      rcases List.mem_cons.mp hc with rfl | hc
      · exact isLowerHex_digitChar _ hmod
      · exact h c hc
    simp only [Nat.toDigitsCore]
    by_cases h0 : n / 16 = 0
    · simpa only [h0, if_true] using hds
    · simpa only [h0, if_false] using ih (n / 16) _ hds

theorem toDigits_length_le (v : Nat) (hv : v < 2 ^ 64) : (Nat.toDigits 16 v).length ≤ 16 :=
  Nat.toDigitsCore_length 16 (by decide) (v + 1) v 16 (by simpa using hv) (by decide)

theorem fmt_016llx_length (v : Nat) : (fmt_016llx v).length = 16 := by
  have h := toDigits_length_le (v % 2 ^ 64) (Nat.mod_lt _ (by decide))
  simp only [fmt_016llx, List.length_append, List.length_replicate]
  omega

theorem fmt_016llx_hex (v : Nat) : ∀ c ∈ fmt_016llx v, isLowerHex c = true := by
  intro c hc
  simp only [fmt_016llx, List.mem_append] at hc
  rcases hc with hc | hc
  · rw [(List.mem_replicate.mp hc).2]; rfl
  · exact toDigitsCore_hex _ _ [] (by simp) c hc

theorem foldl_replicate_zero (k : Nat) (ds : List Char) :
    (List.replicate k '0' ++ ds).foldl (fun acc c => acc * 16 + hexVal c) 0 =
      ds.foldl (fun acc c => acc * 16 + hexVal c) 0 := by
  induction k with
  | zero => rfl
  | succ k ih =>
    rw [List.replicate_succ, List.cons_append, List.foldl_cons]
    exact ih

theorem fmt_016llx_decode (v : Nat) :
    (fmt_016llx v).foldl (fun acc c => acc * 16 + hexVal c) 0 = v % 2 ^ 64 := by
  simp only [fmt_016llx]
  rw [foldl_replicate_zero]
  have h := toDigitsCore_decode (v % 2 ^ 64 + 1) (v % 2 ^ 64) [] (by omega)
  simpa [Nat.toDigits] using h

theorem xxhash64_hex_data (lib : Lib) (payload : List Nat) :
    (xxhash64_hex lib payload).data = fmt_016llx (lib.XXH64 payload 0 % 2 ^ 64) := by
  simp only [xxhash64_hex, snprintf_016llx]
  rw [List.take_of_length_le]
  rw [fmt_016llx_length]

end Dedupmq

namespace Dedupmq

/-- C6: for every payload (the empty one included) `xxhash64_hex` returns a
string of exactly 16 characters, each in `0-9a-f`, that reads as a hexadecimal
number equal to the payload's 64-bit hash with seed 0; payloads with identical
bytes get identical fingerprints, and with the xxHash64 reference the empty
payload has the fingerprint `ef46db3751d8e999`. -/
theorem C6_fingerprint_format (lib : Lib) (payload : List Nat) :
    (xxhash64_hex lib payload).length = 16 ∧
    (∀ c ∈ (xxhash64_hex lib payload).data, isLowerHex c = true) ∧
    hexDecode (xxhash64_hex lib payload) = lib.XXH64 payload 0 % 2 ^ 64 ∧
    (xxhash64_hex lib []).length = 16 ∧
    (∀ other : List Nat, other = payload → xxhash64_hex lib other = xxhash64_hex lib payload) ∧
    xxhash64_hex refLib [] = "ef46db3751d8e999" := by
  have hlen : ∀ q : List Nat, (xxhash64_hex lib q).length = 16 := by
    intro q
    rw [String.length, xxhash64_hex_data, fmt_016llx_length]
  refine ⟨hlen payload, ?_, ?_, hlen [], ?_, by decide⟩
  · rw [xxhash64_hex_data]
    exact fmt_016llx_hex _
  · rw [hexDecode, xxhash64_hex_data, fmt_016llx_decode, Nat.mod_mod]
  · intro other h
    rw [h]

end Dedupmq

/-! ## Lemmas on the option loop -/

namespace Dedupmq

theorem optionValues_cons (key : String) (o : String × String) (rest : List (String × String)) :
    optionValues key (o :: rest) =
      if o.1 = key then o.2 :: optionValues key rest else optionValues key rest := by
  by_cases h : o.1 = key <;> simp [optionValues, List.filter_cons, h]

theorem init_option_topics (lib : Lib) (st : InitLoop) (o : String × String) :
    (init_option lib st o).plugin.topics =
      if o.1 = "topic" ∧ st.plugin.topics.length < MAX_TOPICS then st.plugin.topics ++ [o.2]
      else st.plugin.topics := by
  unfold init_option
  simp only [Plugin.topic_count]
  split_ifs <;> simp_all

theorem foldl_topics (lib : Lib) (options : List (String × String)) :
    ∀ st : InitLoop,
      (options.foldl (init_option lib) st).plugin.topics =
        st.plugin.topics ++
          (optionValues "topic" options).take (MAX_TOPICS - st.plugin.topics.length) := by
  induction options with
  | nil => intro st; simp [optionValues]
  | cons o rest ih =>
    intro st
    rw [List.foldl_cons, ih, init_option_topics, optionValues_cons]
    by_cases hk : o.1 = "topic"
    · by_cases hl : st.plugin.topics.length < MAX_TOPICS
      · have e : MAX_TOPICS - st.plugin.topics.length =
            (MAX_TOPICS - (st.plugin.topics.length + 1)) + 1 := by omega
        simp only [hk, hl, and_self, if_true, List.length_append, List.length_singleton]
        rw [e, List.take_succ_cons, List.append_assoc, List.singleton_append]
      · have e : MAX_TOPICS - st.plugin.topics.length = 0 := by omega
        simp [hk, hl, e]
    · simp [hk]

theorem init_option_ttl (lib : Lib) (st : InitLoop) (o : String × String) :
    (init_option lib st o).plugin.ttl_seconds =
      if o.1 = "ttl" then lib.atoi o.2 else st.plugin.ttl_seconds := by
  unfold init_option
  split_ifs <;> simp_all

theorem foldl_ttl (lib : Lib) (options : List (String × String)) :
    ∀ st : InitLoop,
      (options.foldl (init_option lib) st).plugin.ttl_seconds =
        (((optionValues "ttl" options).getLast?).map lib.atoi).getD st.plugin.ttl_seconds := by
  induction options with
  | nil => intro st; simp [optionValues]
  | cons o rest ih =>
    intro st
    rw [List.foldl_cons, ih, init_option_ttl, optionValues_cons]
    by_cases hk : o.1 = "ttl"
    · simp only [hk, if_true]
      cases hr : optionValues "ttl" rest with
      | nil => simp
      | cons w ws =>
        simp [List.getLast?_eq_getLast _ (List.cons_ne_nil w ws)]
    · simp [hk]

theorem init_option_registered (lib : Lib) (st : InitLoop) (o : String × String) :
    (init_option lib st o).plugin.registered = st.plugin.registered := by
  unfold init_option
  split_ifs <;> rfl

theorem foldl_registered (lib : Lib) (options : List (String × String)) :
    ∀ st : InitLoop,
      (options.foldl (init_option lib) st).plugin.registered = st.plugin.registered := by
  induction options with
  | nil => intro st; rfl
  | cons o rest ih =>
    intro st
    rw [List.foldl_cons, ih, init_option_registered]

theorem init_ret (lib : Lib) (options : List (String × String)) (p : Plugin) :
    (mosquitto_plugin_init lib options p).1 =
      if lib.memcached_create = true then MOSQ_ERR_SUCCESS else MOSQ_ERR_UNKNOWN := by
  unfold mosquitto_plugin_init
  cases lib.memcached_create <;> simp

theorem init_topics (lib : Lib) (options : List (String × String)) (p : Plugin) :
    (mosquitto_plugin_init lib options p).2.topics =
      p.topics ++ (optionValues "topic" options).take (MAX_TOPICS - p.topics.length) := by
  have h := foldl_topics lib options
    { plugin := p, memcached_host := "127.0.0.1", memcached_ports := "11211" }
  unfold mosquitto_plugin_init
  cases lib.memcached_create <;> simpa [init_loop] using h

theorem init_ttl (lib : Lib) (options : List (String × String)) (p : Plugin) :
    (mosquitto_plugin_init lib options p).2.ttl_seconds =
      (((optionValues "ttl" options).getLast?).map lib.atoi).getD p.ttl_seconds := by
  have h := foldl_ttl lib options
    { plugin := p, memcached_host := "127.0.0.1", memcached_ports := "11211" }
  unfold mosquitto_plugin_init
  cases lib.memcached_create <;> simpa [init_loop] using h

theorem init_registered (lib : Lib) (options : List (String × String)) (p : Plugin) :
    (mosquitto_plugin_init lib options p).2.registered =
      (lib.memcached_create || p.registered) := by
  have h := foldl_registered lib options
    { plugin := p, memcached_host := "127.0.0.1", memcached_ports := "11211" }
  unfold mosquitto_plugin_init
  cases lib.memcached_create <;> simp [init_loop, h]

end Dedupmq

namespace Dedupmq

/-- Counterexample to C7 as stated: the filter `a/#/b` has `#` in a level that
is not the last, yet `mosquitto_plugin_init` returns `MOSQ_ERR_SUCCESS`, keeps
the filter in `topics`, and `on_message` hands it to the matcher at match time. -/
theorem C7_counterexample :
    validSubLevels (splitLevels ("a/#/b" : String).data) = false ∧
    (mosquitto_plugin_init refLib [("topic", "a/#/b")] Plugin.initial).1 = MOSQ_ERR_SUCCESS ∧
    (mosquitto_plugin_init refLib [("topic", "a/#/b")] Plugin.initial).2.topics = ["a/#/b"] ∧
    (mosquitto_plugin_init refLib [("topic", "a/#/b")] Plugin.initial).2.registered = true ∧
    (on_message refLib timedStore
      (mosquitto_plugin_init refLib [("topic", "a/#/b")] Plugin.initial).2 demoStore
      ⟨"a/x/b", []⟩).calls = [Call.matches_sub "a/#/b" "a/x/b"] := by
  decide

/-- C7 (amended): `mosquitto_plugin_init` does not validate topic filters.  Its
return value is `MOSQ_ERR_SUCCESS` when `memcached_create` returns a handle and
`MOSQ_ERR_UNKNOWN` otherwise, whatever the option values are, and every `topic`
option value, well formed or not, is appended to the filter list in order
while the list holds fewer than `MAX_TOPICS` entries.  At match time
`on_message` hands a stored filter, well formed or not, to the matcher
whenever no filter stored before it matches the topic. -/
theorem C7_init_keeps_every_filter (lib : Lib) (options : List (String × String))
    (p : Plugin) :
    (mosquitto_plugin_init lib options p).1 =
      (if lib.memcached_create = true then MOSQ_ERR_SUCCESS else MOSQ_ERR_UNKNOWN) ∧
    (mosquitto_plugin_init lib options p).2.topics =
      p.topics ++ (optionValues "topic" options).take (MAX_TOPICS - p.topics.length) ∧
    (∀ (σ : Type) (mc : Memcached σ) (s : σ) (msg : Message) (pre : List String)
        (sub : String) (post : List String),
      (mosquitto_plugin_init lib options p).2.topics = pre ++ sub :: post →
      ¬ Matched lib pre msg.topic →
      Call.matches_sub sub msg.topic ∈
        (on_message lib mc (mosquitto_plugin_init lib options p).2 s msg).calls) := by
  refine ⟨init_ret lib options p, init_topics lib options p, ?_⟩
  intro σ mc s msg pre sub post htopics hpre
  apply on_message_calls_loop
  rw [htopics]
  exact topic_loop_reaches lib msg.topic sub post pre hpre

/-- Witness of C7 (amended): the options `topic x/y` and `topic a/#/b`, the
second malformed, and a message on `a/x/b`; the first filter does not match,
and the malformed filter is handed to the matcher. -/
theorem C7_init_keeps_every_filter_witness :
    validSubLevels (splitLevels ("a/#/b" : String).data) = false ∧
    (mosquitto_plugin_init refLib [("topic", "x/y"), ("topic", "a/#/b")] Plugin.initial).1
      = MOSQ_ERR_SUCCESS ∧
    (mosquitto_plugin_init refLib [("topic", "x/y"), ("topic", "a/#/b")] Plugin.initial).2.topics
      = ["x/y"] ++ "a/#/b" :: [] ∧
    ¬ Matched refLib ["x/y"] "a/x/b" ∧
    Call.matches_sub "a/#/b" "a/x/b" ∈
      (on_message refLib timedStore
        (mosquitto_plugin_init refLib [("topic", "x/y"), ("topic", "a/#/b")] Plugin.initial).2
        demoStore ⟨"a/x/b", []⟩).calls :=
  have hpre : ¬ Matched refLib ["x/y"] "a/x/b" := by
    rintro ⟨sub, hsub, _, h2⟩
    rw [List.mem_singleton] at hsub
    subst hsub
    revert h2
    decide
  ⟨by decide, by decide, by decide, hpre,
    (C7_init_keeps_every_filter refLib [("topic", "x/y"), ("topic", "a/#/b")]
      Plugin.initial).2.2 TimedStore timedStore demoStore ⟨"a/x/b", []⟩ ["x/y"] "a/#/b" []
      (by decide) hpre⟩

/-- Counterexample to C8 as stated: with `ttl` set to `0`, `-5` or `abc`,
`mosquitto_plugin_init` returns `MOSQ_ERR_SUCCESS`, registers the callback and
leaves `ttl_seconds` at `0`, `-5` and `0`. -/
theorem C8_counterexample :
    (mosquitto_plugin_init refLib [("ttl", "0")] Plugin.initial).1 = MOSQ_ERR_SUCCESS ∧
    (mosquitto_plugin_init refLib [("ttl", "0")] Plugin.initial).2.ttl_seconds = 0 ∧
    (mosquitto_plugin_init refLib [("ttl", "0")] Plugin.initial).2.registered = true ∧
    (mosquitto_plugin_init refLib [("ttl", "-5")] Plugin.initial).1 = MOSQ_ERR_SUCCESS ∧
    (mosquitto_plugin_init refLib [("ttl", "-5")] Plugin.initial).2.ttl_seconds = -5 ∧
    (mosquitto_plugin_init refLib [("ttl", "-5")] Plugin.initial).2.registered = true ∧
    (mosquitto_plugin_init refLib [("ttl", "abc")] Plugin.initial).1 = MOSQ_ERR_SUCCESS ∧
    (mosquitto_plugin_init refLib [("ttl", "abc")] Plugin.initial).2.ttl_seconds = 0 ∧
    (mosquitto_plugin_init refLib [("ttl", "abc")] Plugin.initial).2.registered = true := by
  decide

/-- C8 (amended): after `mosquitto_plugin_init`, `ttl_seconds` is `atoi` of the
last `ttl` option value, of any sign, and keeps its previous value (60 from the
static initialiser) when no `ttl` option is supplied.  The return value and the
registration of the callback do not depend on it: the function returns
`MOSQ_ERR_SUCCESS` and registers the callback exactly when `memcached_create`
returns a handle. -/
theorem C8_ttl_is_atoi_unchecked (lib : Lib) (options : List (String × String))
    (p : Plugin) :
    (mosquitto_plugin_init lib options p).2.ttl_seconds =
      (((optionValues "ttl" options).getLast?).map lib.atoi).getD p.ttl_seconds ∧
    (mosquitto_plugin_init lib (options.filter (fun o => o.1 ≠ "ttl"))
      Plugin.initial).2.ttl_seconds = 60 ∧
    (mosquitto_plugin_init lib options p).1 =
      (if lib.memcached_create = true then MOSQ_ERR_SUCCESS else MOSQ_ERR_UNKNOWN) ∧
    (mosquitto_plugin_init lib options p).2.registered =
      (lib.memcached_create || p.registered) := by
  refine ⟨init_ttl lib options p, ?_, init_ret lib options p, init_registered lib options p⟩
  rw [init_ttl]
  have h : optionValues "ttl" (options.filter (fun o => o.1 ≠ "ttl")) = [] := by
    simp [optionValues, List.filter_filter]
  rw [h]
  rfl

/-- C9: the filter set is bounded by `MAX_TOPICS = 64`.  After
`mosquitto_plugin_init` run from an empty filter list, `topic_count` is
`min k 64` for `k` the number of `topic` options, the stored filters are the
first `min k 64` `topic` option values in their original order, and
`topic_count ≤ 64`; `on_message` returns the plugin variables (among them
`topics` and `topic_count`) unchanged. -/
theorem C9_filter_set_bounded (lib : Lib) (options : List (String × String)) (p : Plugin)
    (h : p.topics = []) :
    (mosquitto_plugin_init lib options p).2.topic_count =
      min (optionValues "topic" options).length 64 ∧
    (mosquitto_plugin_init lib options p).2.topics =
      (optionValues "topic" options).take (min (optionValues "topic" options).length 64) ∧
    (mosquitto_plugin_init lib options p).2.topic_count ≤ MAX_TOPICS ∧
    (∀ (σ : Type) (mc : Memcached σ) (s : σ) (msg : Message) (q : Plugin),
      (on_message lib mc q s msg).plugin = q ∧
      (on_message lib mc q s msg).plugin.topic_count = q.topic_count) := by
  have ht : (mosquitto_plugin_init lib options p).2.topics =
      (optionValues "topic" options).take 64 := by
    rw [init_topics, h]
    simp [MAX_TOPICS]
  have hq : ∀ (σ : Type) (mc : Memcached σ) (s : σ) (msg : Message) (q : Plugin),
      (on_message lib mc q s msg).plugin = q := by
    intro σ mc s msg q
    by_cases hm : Matched lib q.topics msg.topic
    · cases hv : (mc.get s (xxhash64_hex lib msg.payload)).1 with
      | none => rw [on_message_none lib mc q s msg hm hv]
      | some v => rw [on_message_some lib mc q s msg hm v hv]
    · rw [on_message_unmatched lib mc q s msg hm]
  refine ⟨?_, ?_, ?_, fun σ mc s msg q => ⟨hq σ mc s msg q, by rw [hq]⟩⟩
  · simp [Plugin.topic_count, ht, List.length_take, Nat.min_comm]
  · rw [ht]
    by_cases hle : (optionValues "topic" options).length ≤ 64
    · rw [Nat.min_eq_left hle, List.take_length, List.take_of_length_le hle]
    · rw [Nat.min_eq_right (by omega)]
  · simp only [Plugin.topic_count, ht, List.length_take, MAX_TOPICS]
    omega

/-- Witness of C9: 66 `topic` options loaded from the initial state leave
exactly 64 filters. -/
theorem C9_filter_set_bounded_witness :
    Plugin.initial.topics = [] ∧
    (mosquitto_plugin_init refLib manyOptions Plugin.initial).2.topic_count =
      min (optionValues "topic" manyOptions).length 64 ∧
    (mosquitto_plugin_init refLib manyOptions Plugin.initial).2.topics =
      (optionValues "topic" manyOptions).take (min (optionValues "topic" manyOptions).length 64) ∧
    (mosquitto_plugin_init refLib manyOptions Plugin.initial).2.topic_count ≤ MAX_TOPICS :=
  have r := C9_filter_set_bounded refLib manyOptions Plugin.initial rfl
  ⟨rfl, r.1, r.2.1, r.2.2.1⟩

theorem two_matched_sensors : Matched refLib twoFilters.topics "sensors/room1/temp" :=
  ⟨"sensors/+/temp", by decide, by decide, by decide⟩

theorem two_matched_alarms : Matched refLib twoFilters.topics "alarms/fire" :=
  ⟨"alarms/#", by decide, by decide, by decide⟩

/-- Witness of C10: the payload `22.5` first on `sensors/room1/temp`, then two
seconds later on `alarms/fire`, which a different filter matches. -/
theorem C10_keyed_on_payload_witness :
    (Matched refLib twoFilters.topics "sensors/room1/temp" ∧
      Matched refLib twoFilters.topics "alarms/fire" ∧
      demoStore.entries.lookup (xxhash64_hex refLib (bytesOf "22.5")) = none ∧
      ((2 : Nat) : Int) < twoFilters.ttl_seconds) ∧
    (on_message refLib timedStore twoFilters demoStore
      ⟨"sensors/room1/temp", bytesOf "22.5"⟩).ret = MOSQ_ERR_SUCCESS ∧
    (on_message refLib timedStore twoFilters
      ((on_message refLib timedStore twoFilters demoStore
        ⟨"sensors/room1/temp", bytesOf "22.5"⟩).store.advance 2)
      ⟨"alarms/fire", bytesOf "22.5"⟩).ret = MOSQ_ERR_PLUGIN_IGNORE :=
  have r := C10_keyed_on_payload refLib twoFilters demoStore "sensors/room1/temp" "alarms/fire"
    (bytesOf "22.5") 2 two_matched_sensors two_matched_alarms (by decide) (by decide)
  ⟨⟨two_matched_sensors, two_matched_alarms, by decide, by decide⟩, r.1, r.2.1⟩

/-- The end-to-end scenario of the specification, evaluated: filter
`sensors/+/temp`, TTL 5; `sensors/room1/temp` with payload `22.5` twice
back-to-back passes and is then dropped, and `sensors/room1/humidity` with the
same payload passes. -/
theorem end_to_end_scenario :
    (mosquitto_plugin_init refLib [("topic", "sensors/+/temp"), ("ttl", "5")]
      Plugin.initial) = (MOSQ_ERR_SUCCESS, demoPlugin) ∧
    (on_message refLib timedStore demoPlugin demoStore demoMsg).ret = MOSQ_ERR_SUCCESS ∧
    (on_message refLib timedStore demoPlugin
      (on_message refLib timedStore demoPlugin demoStore demoMsg).store demoMsg).ret
      = MOSQ_ERR_PLUGIN_IGNORE ∧
    (on_message refLib timedStore demoPlugin
      (on_message refLib timedStore demoPlugin demoStore demoMsg).store otherMsg).ret
      = MOSQ_ERR_SUCCESS ∧
    (mosquitto_plugin_init refLib manyOptions Plugin.initial).2.topic_count = 64 := by
  refine ⟨by decide, by decide, by decide, by decide, ?_⟩
  rw [Plugin.topic_count, init_topics]
  rfl

end Dedupmq
